import Mathlib

/-!
Verification of awi-infra-guard: Azure account client registry and the storage contract

Shallow embedding of `azure/azure.go` (per-account client provisioning) and of
`db/db.go` (collection catalog and the `Client` storage interface).

Conventions of the embedding
* a Go pointer `*T` is an `Option T` (`none` is `nil`);
* a Go `error` is an `Option GoError` (`none` is `nil`);
* calls that leave the package (SDK constructors, the credential provider, the
  account source) are parameters, and every function returns, next to its Go
  results, the list of such calls it made, in order.
-/

namespace Azure

/-! ## Go errors and `fmt.Errorf` -/

/-- Go error value: the text of `Error()` and, for an error built with the
verb `%w`, the error that `Unwrap()` gives back. -/
inductive GoError where
  | plain (msg : String) : GoError
  | wrapping (msg : String) (inner : GoError) : GoError
  deriving DecidableEq, Repr

/-- The method `Error()`. -/
def GoError.Error : GoError → String
  | .plain msg => msg
  | .wrapping msg _ => msg

/-- The method `Unwrap()`; `none` when the error wraps nothing. -/
def GoError.Unwrap : GoError → Option GoError
  | .plain _ => none
  | .wrapping _ inner => some inner

/-- The call `errors.New(msg)`. -/
def errorsNew (msg : String) : GoError := .plain msg

/-- The call `fmt.Errorf(pre ++ "%v", err)`: the text of `err` is appended, nothing is wrapped. -/
def errorfV (pre : String) (err : GoError) : GoError :=
  .plain (pre ++ err.Error)

/-- The call `fmt.Errorf(pre ++ "%w", err)`: the text of `err` is appended and `err` is wrapped. -/
def errorfW (pre : String) (err : GoError) : GoError :=
  .wrapping (pre ++ err.Error) err

/-! ## Go maps with string keys -/

/-- Go `map[string]β` as an association list without repeated keys. -/
abbrev GoMap (β : Type) := List (String × β)

/-- The value `make(map[string]β)`. -/
def GoMap.empty {β : Type} : GoMap β := []

/-- The lookup `v, ok := m[k]`. -/
def GoMap.get {β : Type} : GoMap β → String → Option β
  | [], _ => none
  | (k', v) :: rest, k => if k' = k then some v else GoMap.get rest k

/-- The assignment `m[k] = v`: overwrites the entry of `k` when there is one. -/
def GoMap.set {β : Type} : GoMap β → String → β → GoMap β
  | [], k, v => [(k, v)]
  | (k', v') :: rest, k, v =>
    if k' = k then (k, v) :: rest else (k', v') :: GoMap.set rest k v

/-! ## The program -/

/-- The constant `providerName`. -/
def providerName : String := "Azure"

/-- Calls that leave the package, as recorded in call logs. -/
inductive Call where
  | NewDefaultAzureCredential : Call
  | ListAccounts : Call
  | NewVirtualNetworksClient (accountID : String) : Call
  | NewVirtualNetworkPeeringsClient (accountID : String) : Call
  | NewSecurityGroupsClient (accountID : String) : Call
  | NewTagsClient (accountID : String) : Call
  deriving DecidableEq, Repr

/-- Whether a logged call is one of the four handle constructors. -/
def Call.isHandleConstructor : Call → Bool
  | .NewVirtualNetworksClient _ => true
  | .NewVirtualNetworkPeeringsClient _ => true
  | .NewSecurityGroupsClient _ => true
  | .NewTagsClient _ => true
  | _ => false

/-- The struct `ResourceClient`; `V P N T` stand for the four SDK client types. -/
structure ResourceClient (V P N T : Type) where
  VNET : V
  VNETPeering : P
  NSG : N
  Tag : T
  deriving DecidableEq, Repr

/-- The four SDK constructors `armnetwork.NewVirtualNetworksClient`,
`armnetwork.NewVirtualNetworkPeeringsClient`, `armnetwork.NewSecurityGroupsClient`
and `armresources.NewTagsClient`, each taking the account ID and the credential
and returning `(handle, error)`. -/
structure HandleConstructors (C V P N T : Type) where
  NewVirtualNetworksClient : String → Option C → Option V × Option GoError
  NewVirtualNetworkPeeringsClient : String → Option C → Option P × Option GoError
  NewSecurityGroupsClient : String → Option C → Option N × Option GoError
  NewTagsClient : String → Option C → Option T × Option GoError

/-- The function `NewResourceClient`. -/
def NewResourceClient {C V P N T : Type} (sdk : HandleConstructors C V P N T)
    (accountID : String) (credentials : Option C) :
    (Option (ResourceClient V P N T) × Option GoError) × List Call :=
  match sdk.NewVirtualNetworksClient accountID credentials with
  | (_, some err) =>
    ((none, some (errorfV "failed to create VNet Client: " err)),
      [.NewVirtualNetworksClient accountID])
  | (none, none) =>
    ((none, some (errorsNew "failed to create VNet Client. Got empty client")),
      [.NewVirtualNetworksClient accountID])
  | (some vnetClient, none) =>
  match sdk.NewVirtualNetworkPeeringsClient accountID credentials with
  | (_, some err) =>
    ((none, some (errorfV "failed to create VNet Peering Client: " err)),
      [.NewVirtualNetworksClient accountID, .NewVirtualNetworkPeeringsClient accountID])
  | (none, none) =>
    ((none, some (errorsNew "failed to create VNet Peering Client. Got empty client")),
      [.NewVirtualNetworksClient accountID, .NewVirtualNetworkPeeringsClient accountID])
  | (some vnetPeeringClient, none) =>
  match sdk.NewSecurityGroupsClient accountID credentials with
  | (_, some err) =>
    ((none, some (errorfV "failed to create Security Group Client: " err)),
      [.NewVirtualNetworksClient accountID, .NewVirtualNetworkPeeringsClient accountID,
        .NewSecurityGroupsClient accountID])
  | (none, none) =>
    ((none, some (errorsNew "failed to create Security Group Client. Got empty client")),
      [.NewVirtualNetworksClient accountID, .NewVirtualNetworkPeeringsClient accountID,
        .NewSecurityGroupsClient accountID])
  | (some nsgClient, none) =>
  match sdk.NewTagsClient accountID credentials with
  | (_, some err) =>
    ((none, some (errorfV "failed to create Tag Client: " err)),
      [.NewVirtualNetworksClient accountID, .NewVirtualNetworkPeeringsClient accountID,
        .NewSecurityGroupsClient accountID, .NewTagsClient accountID])
  | (none, none) =>
    ((none, some (errorsNew "failed to create Tag Client. Got empty client")),
      [.NewVirtualNetworksClient accountID, .NewVirtualNetworkPeeringsClient accountID,
        .NewSecurityGroupsClient accountID, .NewTagsClient accountID])
  | (some tagClient, none) =>
    ((some ⟨vnetClient, vnetPeeringClient, nsgClient, tagClient⟩, none),
      [.NewVirtualNetworksClient accountID, .NewVirtualNetworkPeeringsClient accountID,
        .NewSecurityGroupsClient accountID, .NewTagsClient accountID])

/-- Modelled from the spec: `types.Account` is declared outside the two source
files; the account source "supplies the list of account identifiers", and the
code reads only the field `ID`. -/
structure Account where
  ID : String
  deriving DecidableEq, Repr

/-- The struct `Client`; `L` stands for `logrus.Logger`. The map is the one
`NewClient` allocates with `make`. -/
structure Client (C L V P N T : Type) where
  cred : Option C
  logger : Option L
  accountClients : GoMap (Option (ResourceClient V P N T))

/-- The `for _, account := range accounts` loop of `initializeClientsPerAccount`:
the error returned (if any), the map on return and the constructor calls made. -/
def rangeAccounts {C V P N T : Type} (sdk : HandleConstructors C V P N T) (cred : Option C) :
    List Account → GoMap (Option (ResourceClient V P N T)) →
    Option GoError × GoMap (Option (ResourceClient V P N T)) × List Call
  | [], m => (none, m, [])
  | account :: rest, m =>
    match NewResourceClient sdk account.ID cred with
    | ((_, some err), calls) =>
      (some (errorfW ("failed to initialize Client for account ID \x27" ++ account.ID ++ "\x27: ")
        err), m, calls)
    | ((none, none), calls) =>
      (some (errorsNew ("failed to initialize Client for account ID \x27" ++ account.ID
        ++ "\x27. Got nil object")), m, calls)
    | ((some resClient, none), calls) =>
      match rangeAccounts sdk cred rest (GoMap.set m account.ID (some resClient)) with
      | (err, m', calls') => (err, m', calls ++ calls')

/-- The method `(*Client).initializeClientsPerAccount`; `listAccounts` is the
method `(*Client).ListAccounts`, defined outside the two source files. Returns
the error, the client as the call leaves it and the call log. -/
def Client.initializeClientsPerAccount {C L V P N T : Type}
    (sdk : HandleConstructors C V P N T) (listAccounts : Client C L V P N T → List Account)
    (c : Client C L V P N T) : Option GoError × Client C L V P N T × List Call :=
  let accounts := listAccounts c
  match rangeAccounts sdk c.cred accounts c.accountClients with
  | (err, m, calls) => (err, { c with accountClients := m }, Call.ListAccounts :: calls)

/-- The function `NewClient`; `newDefaultAzureCredential` is the outcome of
`azidentity.NewDefaultAzureCredential(nil)`. The context argument is unused by
the source and left out. -/
def NewClient {C L V P N T : Type} (sdk : HandleConstructors C V P N T)
    (newDefaultAzureCredential : Option C × Option GoError)
    (listAccounts : Client C L V P N T → List Account) (logger : Option L) :
    (Option (Client C L V P N T) × Option GoError) × List Call :=
  match newDefaultAzureCredential with
  | (_, some err) =>
    ((none, some (errorfW "failed to obtain a credential: " err)),
      [Call.NewDefaultAzureCredential])
  | (cred, none) =>
    let client : Client C L V P N T :=
      { cred := cred, logger := logger, accountClients := GoMap.empty }
    match client.initializeClientsPerAccount sdk listAccounts with
    | (some err, _, calls) =>
      ((none, some (errorfW "failed to initialize resource clients: " err)),
        Call.NewDefaultAzureCredential :: calls)
    | (none, client', calls) =>
      ((some client', none), Call.NewDefaultAzureCredential :: calls)

/-- The method `(*Client).GetName`. -/
def Client.GetName {C L V P N T : Type} (_c : Client C L V P N T) : String :=
  providerName

/-! ## Vocabulary of the claims about the registry -/

/-- A constructor outcome that `NewResourceClient` refuses: a non-nil error, or a
nil handle with no error. -/
def handleFails {H : Type} (r : Option H × Option GoError) : Prop :=
  r.2.isSome = true ∨ (r.1.isNone = true ∧ r.2.isNone = true)

instance {H : Type} (r : Option H × Option GoError) : Decidable (handleFails r) := by
  unfold handleFails; infer_instance

/-- At least one of the four constructors fails for this account ID and credential. -/
def bundleFails {C V P N T : Type} (sdk : HandleConstructors C V P N T)
    (accountID : String) (credentials : Option C) : Prop :=
  handleFails (sdk.NewVirtualNetworksClient accountID credentials) ∨
  handleFails (sdk.NewVirtualNetworkPeeringsClient accountID credentials) ∨
  handleFails (sdk.NewSecurityGroupsClient accountID credentials) ∨
  handleFails (sdk.NewTagsClient accountID credentials)

instance {C V P N T : Type} (sdk : HandleConstructors C V P N T)
    (accountID : String) (credentials : Option C) :
    Decidable (bundleFails sdk accountID credentials) := by
  unfold bundleFails; infer_instance

/-- The four handles of a bundle, in the order the source constructs them. -/
inductive HandleKind where
  | VNet | VNetPeering | SecurityGroup | Tag
  deriving DecidableEq, Repr

/-- The name under which the source's messages mention a handle. -/
def HandleKind.name : HandleKind → String
  | .VNet => "VNet"
  | .VNetPeering => "VNet Peering"
  | .SecurityGroup => "Security Group"
  | .Tag => "Tag"

/-- The first handle, in construction order, whose constructor fails. -/
def firstFailingHandle {C V P N T : Type} (sdk : HandleConstructors C V P N T)
    (accountID : String) (credentials : Option C) : Option HandleKind :=
  if handleFails (sdk.NewVirtualNetworksClient accountID credentials) then some .VNet
  else if handleFails (sdk.NewVirtualNetworkPeeringsClient accountID credentials) then
    some .VNetPeering
  else if handleFails (sdk.NewSecurityGroupsClient accountID credentials) then
    some .SecurityGroup
  else if handleFails (sdk.NewTagsClient accountID credentials) then some .Tag
  else none

/-- The text `sub` occurs in the text `s`. -/
def occursIn (sub s : String) : Prop := sub.data <:+: s.data

instance (sub s : String) : Decidable (occursIn sub s) := by
  unfold occursIn; infer_instance

/-- The calls a complete bundle construction makes for one account. -/
def constructorCalls (accountID : String) : List Call :=
  [.NewVirtualNetworksClient accountID, .NewVirtualNetworkPeeringsClient accountID,
    .NewSecurityGroupsClient accountID, .NewTagsClient accountID]

/-- The calls complete bundle constructions make for the accounts of a list, in order. -/
def constructorCallsAll : List Account → List Call
  | [] => []
  | a :: rest => constructorCalls a.ID ++ constructorCallsAll rest

/-- The bundle `NewResourceClient` returns for an account (nil when it fails). -/
def bundleOf {C V P N T : Type} (sdk : HandleConstructors C V P N T)
    (accountID : String) (credentials : Option C) : Option (ResourceClient V P N T) :=
  (NewResourceClient sdk accountID credentials).1.1

/-- The map after registering, in order, the bundle of every account of a list. -/
def registerAll {C V P N T : Type} (sdk : HandleConstructors C V P N T) (cred : Option C)
    (accounts : List Account) (m : GoMap (Option (ResourceClient V P N T))) :
    GoMap (Option (ResourceClient V P N T)) :=
  accounts.foldl (fun acc b => GoMap.set acc b.ID (bundleOf sdk b.ID cred)) m

/-! ## Sample inputs -/

/-- Constructors that always succeed; a handle is shown as a text naming its
kind and account. -/
def sampleSdk : HandleConstructors Unit String String String String where
  NewVirtualNetworksClient := fun id _ => (some ("vnet/" ++ id), none)
  NewVirtualNetworkPeeringsClient := fun id _ => (some ("peering/" ++ id), none)
  NewSecurityGroupsClient := fun id _ => (some ("nsg/" ++ id), none)
  NewTagsClient := fun id _ => (some ("tag/" ++ id), none)

/-- Constructors of which the tag constructor returns an error for acc-2 and the
security group constructor returns a nil handle with no error for acc-3. -/
def faultySdk : HandleConstructors Unit String String String String where
  NewVirtualNetworksClient := fun id _ => (some ("vnet/" ++ id), none)
  NewVirtualNetworkPeeringsClient := fun id _ => (some ("peering/" ++ id), none)
  NewSecurityGroupsClient := fun id _ =>
    if id = "acc-3" then (none, none) else (some ("nsg/" ++ id), none)
  NewTagsClient := fun id _ =>
    if id = "acc-2" then (none, some (.plain "authentication refused"))
    else (some ("tag/" ++ id), none)

/-- An account source with the accounts acc-1 and acc-2. -/
def twoAccounts : Client Unit Unit String String String String → List Account :=
  fun _ => [⟨"acc-1"⟩, ⟨"acc-2"⟩]

/-- An account source with the accounts acc-1, acc-2 and acc-3. -/
def threeAccounts : Client Unit Unit String String String String → List Account :=
  fun _ => [⟨"acc-1"⟩, ⟨"acc-2"⟩, ⟨"acc-3"⟩]

/-- The client `NewClient` builds before it provisions the accounts. -/
def freshClient : Client Unit Unit String String String String :=
  { cred := some (), logger := none, accountClients := GoMap.empty }

end Azure

namespace Db

open Azure (GoMap)

/-! ## The collection catalog of `db/db.go` -/

/-- The constant `vpcTable`. -/
def vpcTable : String := "vpcs"
/-- The constant `instanceTable`. -/
def instanceTable : String := "instances"
/-- The constant `subnetTable`. -/
def subnetTable : String := "subnets"
/-- The constant `clusterTable`. -/
def clusterTable : String := "clusters"
/-- The constant `podTable`. -/
def podTable : String := "pods"
/-- The constant `kubernetesServiceTable`. -/
def kubernetesServiceTable : String := "kubernetes_services"
/-- The constant `kubernetesNodeTable`. -/
def kubernetesNodeTable : String := "kubernetes_nodes"
/-- The constant `namespaceTable`. -/
def namespaceTable : String := "namespaces"
/-- The constant `accountTable`. -/
def accountTable : String := "accounts"
/-- The constant `routeTableTable`. -/
def routeTableTable : String := "route_tables"
/-- The constant `aclTable`. -/
def aclTable : String := "acls"
/-- The constant `securityGroupTable`. -/
def securityGroupTable : String := "security_groups"
/-- The constant `syncTimeTable`. -/
def syncTimeTable : String := "sync_time"

/-- The variable `tableNames`. -/
def tableNames : List String :=
  [vpcTable, instanceTable, subnetTable, clusterTable, podTable, kubernetesServiceTable,
    kubernetesNodeTable, namespaceTable, accountTable, routeTableTable, aclTable,
    securityGroupTable, syncTimeTable]

/-- One method of a Go interface: its name, parameter types and result types. -/
structure Method where
  name : String
  params : List String
  results : List String
  deriving DecidableEq, Repr

/-- The method set of the interface `Client`, in source order. -/
def clientMethods : List Method :=
  [⟨"Open", ["string"], ["error"]⟩,
   ⟨"Close", [], ["error"]⟩,
   ⟨"DropDB", [], ["error"]⟩,
   ⟨"PutVPC", ["*types.VPC"], ["error"]⟩,
   ⟨"GetVPC", ["string"], ["*types.VPC", "error"]⟩,
   ⟨"ListVPCs", [], ["[]*types.VPC", "error"]⟩,
   ⟨"DeleteVPC", ["string"], ["error"]⟩,
   ⟨"PutInstance", ["*types.Instance"], ["error"]⟩,
   ⟨"GetInstance", ["string"], ["*types.Instance", "error"]⟩,
   ⟨"ListInstances", [], ["[]*types.Instance", "error"]⟩,
   ⟨"DeleteInstance", ["string"], ["error"]⟩,
   ⟨"PutSubnet", ["*types.Subnet"], ["error"]⟩,
   ⟨"GetSubnet", ["string"], ["*types.Subnet", "error"]⟩,
   ⟨"ListSubnets", [], ["[]*types.Subnet", "error"]⟩,
   ⟨"DeleteSubnet", ["string"], ["error"]⟩,
   ⟨"PutACL", ["*types.ACL"], ["error"]⟩,
   ⟨"GetACL", ["string"], ["*types.ACL", "error"]⟩,
   ⟨"ListACLs", [], ["[]*types.ACL", "error"]⟩,
   ⟨"DeleteACL", ["string"], ["error"]⟩,
   ⟨"PutRouteTable", ["*types.RouteTable"], ["error"]⟩,
   ⟨"GetRouteTable", ["string"], ["*types.RouteTable", "error"]⟩,
   ⟨"ListRouteTables", [], ["[]*types.RouteTable", "error"]⟩,
   ⟨"DeleteRouteTable", ["string"], ["error"]⟩,
   ⟨"PutSecurityGroup", ["*types.SecurityGroup"], ["error"]⟩,
   ⟨"GetSecurityGroup", ["string"], ["*types.SecurityGroup", "error"]⟩,
   ⟨"ListSecurityGroups", [], ["[]*types.SecurityGroup", "error"]⟩,
   ⟨"DeleteSecurityGroup", ["string"], ["error"]⟩,
   ⟨"PutCluster", ["*types.Cluster"], ["error"]⟩,
   ⟨"GetCluster", ["string"], ["*types.Cluster", "error"]⟩,
   ⟨"ListClusters", [], ["[]*types.Cluster", "error"]⟩,
   ⟨"DeleteCluster", ["string"], ["error"]⟩,
   ⟨"PutPod", ["*types.Pod"], ["error"]⟩,
   ⟨"GetPod", ["string"], ["*types.Pod", "error"]⟩,
   ⟨"ListPods", [], ["[]*types.Pod", "error"]⟩,
   ⟨"DeletePod", ["string"], ["error"]⟩,
   ⟨"PutKubernetesService", ["*types.K8SService"], ["error"]⟩,
   ⟨"GetKubernetesService", ["string"], ["*types.K8SService", "error"]⟩,
   ⟨"ListKubernetesServices", [], ["[]*types.K8SService", "error"]⟩,
   ⟨"DeleteKubernetesService", ["string"], ["error"]⟩,
   ⟨"PutKubernetesNode", ["*types.K8sNode"], ["error"]⟩,
   ⟨"GetKubernetesNode", ["string"], ["*types.K8sNode", "error"]⟩,
   ⟨"ListKubernetesNodes", [], ["[]*types.K8sNode", "error"]⟩,
   ⟨"DeleteKubernetesNode", ["string"], ["error"]⟩,
   ⟨"PutNamespace", ["*types.Namespace"], ["error"]⟩,
   ⟨"GetNamespace", ["string"], ["*types.Namespace", "error"]⟩,
   ⟨"ListNamespaces", [], ["[]*types.Namespace", "error"]⟩,
   ⟨"DeleteNamespace", ["string"], ["error"]⟩,
   ⟨"PutSyncTime", ["*types.SyncTime"], ["error"]⟩,
   ⟨"GetSyncTime", ["string"], ["*types.SyncTime", "error"]⟩,
   ⟨"ListSyncTimes", [], ["[]*types.SyncTime", "error"]⟩,
   ⟨"DeleteSyncTime", ["string"], ["error"]⟩]

/-! ## Vocabulary of the claims about the storage contract -/

/-- The resource kinds of the catalog, in the order of `tableNames`. -/
inductive Kind where
  | VirtualNetwork | Instance | Subnet | Cluster | Pod | KubernetesService | KubernetesNode
  | Namespace | Account | RouteTable | AccessControlList | SecurityGroup | SyncRecord
  deriving DecidableEq, Repr

/-- Every kind, in catalog order. -/
def Kind.all : List Kind :=
  [.VirtualNetwork, .Instance, .Subnet, .Cluster, .Pod, .KubernetesService, .KubernetesNode,
    .Namespace, .Account, .RouteTable, .AccessControlList, .SecurityGroup, .SyncRecord]

/-- The collection of a kind: the table-name constant at the kind's position in `tableNames`. -/
def Kind.table : Kind → String
  | .VirtualNetwork => vpcTable
  | .Instance => instanceTable
  | .Subnet => subnetTable
  | .Cluster => clusterTable
  | .Pod => podTable
  | .KubernetesService => kubernetesServiceTable
  | .KubernetesNode => kubernetesNodeTable
  | .Namespace => namespaceTable
  | .Account => accountTable
  | .RouteTable => routeTableTable
  | .AccessControlList => aclTable
  | .SecurityGroup => securityGroupTable
  | .SyncRecord => syncTimeTable

/-- The word the interface's method names use for a kind (`PutVPC`, `GetACL`, ...). -/
def Kind.stem : Kind → String
  | .VirtualNetwork => "VPC"
  | .Instance => "Instance"
  | .Subnet => "Subnet"
  | .Cluster => "Cluster"
  | .Pod => "Pod"
  | .KubernetesService => "KubernetesService"
  | .KubernetesNode => "KubernetesNode"
  | .Namespace => "Namespace"
  | .Account => "Account"
  | .RouteTable => "RouteTable"
  | .AccessControlList => "ACL"
  | .SecurityGroup => "SecurityGroup"
  | .SyncRecord => "SyncTime"

/-- The Go payload type of a kind in package `types`. -/
def Kind.payload : Kind → String
  | .VirtualNetwork => "VPC"
  | .Instance => "Instance"
  | .Subnet => "Subnet"
  | .Cluster => "Cluster"
  | .Pod => "Pod"
  | .KubernetesService => "K8SService"
  | .KubernetesNode => "K8sNode"
  | .Namespace => "Namespace"
  | .Account => "Account"
  | .RouteTable => "RouteTable"
  | .AccessControlList => "ACL"
  | .SecurityGroup => "SecurityGroup"
  | .SyncRecord => "SyncTime"

/-- The four per-kind operations of the storage contract. -/
inductive Operation where
  | Put | Get | List | Delete
  deriving DecidableEq, Repr

/-- The method an operation on a kind has in the interface's naming scheme. -/
def signatureOf : Operation → Kind → Method
  | .Put, k => ⟨"Put" ++ k.stem, ["*types." ++ k.payload], ["error"]⟩
  | .Get, k => ⟨"Get" ++ k.stem, ["string"], ["*types." ++ k.payload, "error"]⟩
  | .List, k => ⟨"List" ++ k.stem ++ "s", [], ["[]*types." ++ k.payload, "error"]⟩
  | .Delete, k => ⟨"Delete" ++ k.stem, ["string"], ["error"]⟩

/-- The interface `Client` declares the operation for the kind. -/
def declares (op : Operation) (k : Kind) : Bool :=
  decide (signatureOf op k ∈ clientMethods)

/-- A method whose name or signature mentions the text `word`. -/
def Method.mentions (m : Method) (word : String) : Bool :=
  decide (Azure.occursIn word m.name) ||
    m.params.any (fun t => decide (Azure.occursIn word t)) ||
    m.results.any (fun t => decide (Azure.occursIn word t))

/-! ## The store behind the interface -/

/-- Modelled from the spec: the error classes of section 7 that the store reports. -/
inductive StoreError where
  | NotFound | StoreClosed | BackingEngine | Cancellation
  deriving DecidableEq, Repr

/-- Modelled from the spec: a stored object exposes its identifier, its provider
and its synchronization time (`DbId`, `GetProvider`, `SetSyncTime` of `DbObject`);
the payload types of package `types` are outside the two source files. -/
structure StoredObject where
  Id : String
  Provider : String
  SyncTime : String
  deriving DecidableEq, Repr

/-- Modelled from the spec: the lifecycle of the storage handle (section 4.2).
`Open` "must be called before any Put/Get/List/Delete" and `Close` "makes
subsequent calls fail": a store is not yet opened, open, or closed. -/
inductive Lifecycle where
  | NotOpened | Open | Closed
  deriving DecidableEq, Repr

/-- Modelled from the spec: what happens to one call outside the store's
control. The backing engine carries the call out, the backing engine fails
(the IOError of section 7), or the cancellation signal arrives before the call
completes (section 5). -/
inductive CallFate where
  | Completes | EngineFails | Cancelled
  deriving DecidableEq, Repr

/-- Modelled from the spec: no implementation of the interface `Client` is in
the two source files. The store holds its place in the lifecycle and one
collection per kind, keyed by identifier; `α k` is the payload type of kind `k`. -/
structure Store (α : Kind → Type) where
  lifecycle : Lifecycle
  collections : (k : Kind) → GoMap (α k)

/-- Modelled from the spec: a store on which `Open` has not been called yet. -/
def Store.new (α : Kind → Type) : Store α :=
  { lifecycle := .NotOpened, collections := fun _ => GoMap.empty }

/-- Modelled from the spec: the error, if any, with which a Put, Get or Close
ends before it does its work. After `Close` the call fails with the store-closed
error (section 4.2); on an open store a backing-engine failure is propagated and
a cancellation is reported as such (sections 5 and 7). The spec names no error
for a call made before `Open`; the model reports it as store-closed, the one
class of section 7 for a store that is not open. -/
def Store.refusal {α : Kind → Type} (fate : CallFate) (s : Store α) : Option StoreError :=
  match s.lifecycle with
  | .NotOpened => some .StoreClosed
  | .Closed => some .StoreClosed
  | .Open =>
    match fate with
    | .EngineFails => some .BackingEngine
    | .Cancelled => some .Cancellation
    | .Completes => none

/-- Modelled from the spec: `Open(location)` starts the lifecycle of the storage
handle. It fails after `Close`, on a backing-engine failure and on cancellation;
otherwise the store is open, with the collections it holds. -/
def Store.Open {α : Kind → Type} (fate : CallFate) (_location : String) (s : Store α) :
    Except StoreError (Store α) :=
  match s.lifecycle, fate with
  | .Closed, _ => .error .StoreClosed
  | _, .EngineFails => .error .BackingEngine
  | _, .Cancelled => .error .Cancellation
  | _, .Completes => .ok { s with lifecycle := .Open }

/-- Modelled from the spec: `Close` "releases resources and makes subsequent
calls fail with a distinct store closed error". -/
def Store.Close {α : Kind → Type} (fate : CallFate) (s : Store α) :
    Except StoreError (Store α) :=
  match Store.refusal fate s with
  | some e => .error e
  | none => .ok { s with lifecycle := .Closed }

/-- Modelled from the spec: `Put(K, object)` "upserts by identifier; overwrites
any existing object with the same id in the same kind's collection". A call that
fails leaves the store as it was. -/
def Store.Put {α : Kind → Type} (fate : CallFate) (dbId : (k : Kind) → α k → String)
    (k : Kind) (o : α k) (s : Store α) : Except StoreError (Store α) :=
  match Store.refusal fate s with
  | some e => .error e
  | none => .ok { s with
      collections :=
        Function.update s.collections k (GoMap.set (s.collections k) (dbId k o) o) }

/-- Modelled from the spec: `Get(K, id)` is an "exact lookup; absence is a typed
error". -/
def Store.Get {α : Kind → Type} (fate : CallFate) (k : Kind) (id : String) (s : Store α) :
    Except StoreError (α k) :=
  match Store.refusal fate s with
  | some e => .error e
  | none =>
    match GoMap.get (s.collections k) id with
    | some o => .ok o
    | none => .error .NotFound

/-! ## Sample inputs -/

/-- The identifier of a stored object, for every kind. -/
def sampleDbId : (k : Kind) → StoredObject → String := fun _ o => o.Id

/-- A virtual network with id vnet-1 and provider Azure. -/
def vnet1 : StoredObject := { Id := "vnet-1", Provider := "Azure", SyncTime := "" }

/-- An open store with every collection empty. -/
def openStore : Store (fun _ => StoredObject) :=
  { lifecycle := .Open, collections := fun _ => GoMap.empty }

/-- A store that was opened and then closed. -/
def closedStore : Store (fun _ => StoredObject) :=
  { lifecycle := .Closed, collections := fun _ => GoMap.empty }

end Db

namespace Azure

/-! ## Lemmas about maps -/

theorem GoMap.get_set_self {β : Type} (m : GoMap β) (k : String) (v : β) :
    GoMap.get (GoMap.set m k v) k = some v := by
  induction m with
  | nil => simp [GoMap.set, GoMap.get]
  | cons p rest ih =>
    obtain ⟨k', v'⟩ := p
    by_cases h : k' = k
    · simp [GoMap.set, GoMap.get, h]
    · simp [GoMap.set, GoMap.get, h, ih]

theorem GoMap.get_set_of_ne {β : Type} (m : GoMap β) (k k' : String) (v : β) (h : k ≠ k') :
    GoMap.get (GoMap.set m k v) k' = GoMap.get m k' := by
  induction m with
  | nil => simp [GoMap.set, GoMap.get, h]
  | cons p rest ih =>
    obtain ⟨k₀, v₀⟩ := p
    by_cases h₀ : k₀ = k
    · subst h₀
      simp [GoMap.set, GoMap.get, h]
    · by_cases h₁ : k₀ = k'
      · subst h₁
        simp [GoMap.set, GoMap.get, h₀]
      · simp [GoMap.set, GoMap.get, h₀, h₁, ih]

/-! ## Lemmas about texts -/

theorem occursIn_append_left (sub s t : String) (h : occursIn sub s) :
    occursIn sub (s ++ t) := by
  unfold occursIn at *
  obtain ⟨l, r, hlr⟩ := h
  exact ⟨l, r ++ t.data, by simp [← hlr]⟩

theorem occursIn_append_right (sub s t : String) (h : occursIn sub t) :
    occursIn sub (s ++ t) := by
  unfold occursIn at *
  obtain ⟨l, r, hlr⟩ := h
  exact ⟨s.data ++ l, r, by simp [← hlr]⟩

theorem occursIn_self (s : String) : occursIn s s := List.infix_refl _

/-! ## Lemmas about `NewResourceClient` -/

theorem handleFails_iff {H : Type} (r : Option H × Option GoError) :
    handleFails r ↔ ¬ ∃ h, r = (some h, none) := by
  obtain ⟨_ | h, _ | e⟩ := r <;> simp [handleFails]

theorem NewResourceClient_of_not_fails {C V P N T : Type} (sdk : HandleConstructors C V P N T)
    (accountID : String) (cred : Option C) (h : ¬ bundleFails sdk accountID cred) :
    ∃ v p n t, sdk.NewVirtualNetworksClient accountID cred = (some v, none) ∧
      sdk.NewVirtualNetworkPeeringsClient accountID cred = (some p, none) ∧
      sdk.NewSecurityGroupsClient accountID cred = (some n, none) ∧
      sdk.NewTagsClient accountID cred = (some t, none) ∧
      NewResourceClient sdk accountID cred =
        ((some ⟨v, p, n, t⟩, none), constructorCalls accountID) := by
  simp only [bundleFails, handleFails_iff, not_or, not_not] at h
  obtain ⟨⟨v, hv⟩, ⟨p, hp⟩, ⟨n, hn⟩, ⟨t, ht⟩⟩ := h
  exact ⟨v, p, n, t, hv, hp, hn, ht, by simp [NewResourceClient, hv, hp, hn, ht, constructorCalls]⟩

theorem NewResourceClient_of_fails {C V P N T : Type} (sdk : HandleConstructors C V P N T)
    (accountID : String) (cred : Option C) (h : bundleFails sdk accountID cred) :
    ∃ e k, (NewResourceClient sdk accountID cred).1 = (none, some e) ∧
      firstFailingHandle sdk accountID cred = some k ∧ occursIn k.name e.Error ∧
      (NewResourceClient sdk accountID cred).2 <+: constructorCalls accountID := by
  rcases hv : sdk.NewVirtualNetworksClient accountID cred with ⟨_ | v, _ | e₁⟩
  · exact ⟨errorsNew "failed to create VNet Client. Got empty client", .VNet, by simp [NewResourceClient, hv],
      by simp [firstFailingHandle, hv, handleFails],
      by simp only [errorsNew, GoError.Error]; decide,
      by simp [NewResourceClient, hv, constructorCalls]⟩
  · exact ⟨errorfV "failed to create VNet Client: " e₁, .VNet, by simp [NewResourceClient, hv],
      by simp [firstFailingHandle, hv, handleFails],
      occursIn_append_left _ _ _ (by decide),
      by simp [NewResourceClient, hv, constructorCalls]⟩
  · rcases hp : sdk.NewVirtualNetworkPeeringsClient accountID cred with ⟨_ | p, _ | e₂⟩
    · exact ⟨errorsNew "failed to create VNet Peering Client. Got empty client", .VNetPeering, by simp [NewResourceClient, hv, hp],
        by simp [firstFailingHandle, hv, hp, handleFails],
        by simp only [errorsNew, GoError.Error]; decide,
        by simp [NewResourceClient, hv, hp, constructorCalls]⟩
    · exact ⟨errorfV "failed to create VNet Peering Client: " e₂, .VNetPeering, by simp [NewResourceClient, hv, hp],
        by simp [firstFailingHandle, hv, hp, handleFails],
        occursIn_append_left _ _ _ (by decide),
        by simp [NewResourceClient, hv, hp, constructorCalls]⟩
    · rcases hn : sdk.NewSecurityGroupsClient accountID cred with ⟨_ | n, _ | e₃⟩
      · exact ⟨errorsNew "failed to create Security Group Client. Got empty client", .SecurityGroup, by simp [NewResourceClient, hv, hp, hn],
          by simp [firstFailingHandle, hv, hp, hn, handleFails],
          by simp only [errorsNew, GoError.Error]; decide,
          by simp [NewResourceClient, hv, hp, hn, constructorCalls]⟩
      · exact ⟨errorfV "failed to create Security Group Client: " e₃, .SecurityGroup, by simp [NewResourceClient, hv, hp, hn],
          by simp [firstFailingHandle, hv, hp, hn, handleFails],
          occursIn_append_left _ _ _ (by decide),
          by simp [NewResourceClient, hv, hp, hn, constructorCalls]⟩
      · rcases ht : sdk.NewTagsClient accountID cred with ⟨_ | t, _ | e₄⟩
        · exact ⟨errorsNew "failed to create Tag Client. Got empty client", .Tag, by simp [NewResourceClient, hv, hp, hn, ht],
            by simp [firstFailingHandle, hv, hp, hn, ht, handleFails],
            by simp only [errorsNew, GoError.Error]; decide,
            by simp [NewResourceClient, hv, hp, hn, ht, constructorCalls]⟩
        · exact ⟨errorfV "failed to create Tag Client: " e₄, .Tag, by simp [NewResourceClient, hv, hp, hn, ht],
            by simp [firstFailingHandle, hv, hp, hn, ht, handleFails],
            occursIn_append_left _ _ _ (by decide),
            by simp [NewResourceClient, hv, hp, hn, ht, constructorCalls]⟩
        · exact absurd h (by simp [bundleFails, handleFails, hv, hp, hn, ht])
        · exact ⟨errorfV "failed to create Tag Client: " e₄, .Tag, by simp [NewResourceClient, hv, hp, hn, ht],
            by simp [firstFailingHandle, hv, hp, hn, ht, handleFails],
            occursIn_append_left _ _ _ (by decide),
            by simp [NewResourceClient, hv, hp, hn, ht, constructorCalls]⟩
      · exact ⟨errorfV "failed to create Security Group Client: " e₃, .SecurityGroup, by simp [NewResourceClient, hv, hp, hn],
          by simp [firstFailingHandle, hv, hp, hn, handleFails],
          occursIn_append_left _ _ _ (by decide),
          by simp [NewResourceClient, hv, hp, hn, constructorCalls]⟩
    · exact ⟨errorfV "failed to create VNet Peering Client: " e₂, .VNetPeering, by simp [NewResourceClient, hv, hp],
        by simp [firstFailingHandle, hv, hp, handleFails],
        occursIn_append_left _ _ _ (by decide),
        by simp [NewResourceClient, hv, hp, constructorCalls]⟩
  · exact ⟨errorfV "failed to create VNet Client: " e₁, .VNet, by simp [NewResourceClient, hv],
      by simp [firstFailingHandle, hv, handleFails],
      occursIn_append_left _ _ _ (by decide),
      by simp [NewResourceClient, hv, constructorCalls]⟩

end Azure

namespace Azure

/-! ## Lemmas about the account loop -/

theorem NewResourceClient_bundleOf {C V P N T : Type} (sdk : HandleConstructors C V P N T)
    (accountID : String) (cred : Option C) (h : ¬ bundleFails sdk accountID cred) :
    (bundleOf sdk accountID cred).isSome = true ∧
    NewResourceClient sdk accountID cred =
      ((bundleOf sdk accountID cred, none), constructorCalls accountID) := by
  obtain ⟨v, p, n, t, -, -, -, -, hr⟩ := NewResourceClient_of_not_fails sdk accountID cred h
  simp [bundleOf, hr]

theorem firstFailingHandle_some {C V P N T : Type} (sdk : HandleConstructors C V P N T)
    (accountID : String) (cred : Option C) (k : HandleKind)
    (h : firstFailingHandle sdk accountID cred = some k) : bundleFails sdk accountID cred := by
  unfold firstFailingHandle at h
  unfold bundleFails
  split_ifs at h with h₁ h₂ h₃ h₄
  · exact Or.inl h₁
  · exact Or.inr (Or.inl h₂)
  · exact Or.inr (Or.inr (Or.inl h₃))
  · exact Or.inr (Or.inr (Or.inr h₄))

theorem rangeAccounts_cons_ok {C V P N T : Type} (sdk : HandleConstructors C V P N T)
    (cred : Option C) (a : Account) (rest : List Account)
    (m : GoMap (Option (ResourceClient V P N T))) (h : ¬ bundleFails sdk a.ID cred) :
    rangeAccounts sdk cred (a :: rest) m =
      ((rangeAccounts sdk cred rest (GoMap.set m a.ID (bundleOf sdk a.ID cred))).1,
       (rangeAccounts sdk cred rest (GoMap.set m a.ID (bundleOf sdk a.ID cred))).2.1,
       constructorCalls a.ID ++
         (rangeAccounts sdk cred rest (GoMap.set m a.ID (bundleOf sdk a.ID cred))).2.2) := by
  obtain ⟨v, p, n, t, -, -, -, -, hr⟩ := NewResourceClient_of_not_fails sdk a.ID cred h
  simp [rangeAccounts, bundleOf, hr]

theorem rangeAccounts_cons_fail {C V P N T : Type} (sdk : HandleConstructors C V P N T)
    (cred : Option C) (a : Account) (rest : List Account)
    (m : GoMap (Option (ResourceClient V P N T))) (h : bundleFails sdk a.ID cred) :
    ∃ e, (NewResourceClient sdk a.ID cred).1 = (none, some e) ∧
      rangeAccounts sdk cred (a :: rest) m =
        (some (errorfW ("failed to initialize Client for account ID \x27" ++ a.ID ++ "\x27: ") e),
          m, (NewResourceClient sdk a.ID cred).2) := by
  obtain ⟨e, k, he, -, -, -⟩ := NewResourceClient_of_fails sdk a.ID cred h
  refine ⟨e, he, ?_⟩
  rcases hr : NewResourceClient sdk a.ID cred with ⟨⟨b, e'⟩, calls⟩
  rw [hr] at he
  simp only [Prod.mk.injEq] at he
  obtain ⟨rfl, rfl⟩ := he
  simp [rangeAccounts, hr]

theorem rangeAccounts_append_ok {C V P N T : Type} (sdk : HandleConstructors C V P N T)
    (cred : Option C) (pre rest : List Account)
    (m : GoMap (Option (ResourceClient V P N T)))
    (h : ∀ b ∈ pre, ¬ bundleFails sdk b.ID cred) :
    rangeAccounts sdk cred (pre ++ rest) m =
      ((rangeAccounts sdk cred rest (registerAll sdk cred pre m)).1,
       (rangeAccounts sdk cred rest (registerAll sdk cred pre m)).2.1,
       constructorCallsAll pre ++
         (rangeAccounts sdk cred rest (registerAll sdk cred pre m)).2.2) := by
  induction pre generalizing m with
  | nil => simp [registerAll, constructorCallsAll]
  | cons b pre ih =>
    have hb : ¬ bundleFails sdk b.ID cred := h b (List.mem_cons_self _ _)
    have hpre : ∀ x ∈ pre, ¬ bundleFails sdk x.ID cred :=
      fun x hx => h x (List.mem_cons_of_mem _ hx)
    rw [List.cons_append, rangeAccounts_cons_ok sdk cred b (pre ++ rest) m hb, ih _ hpre]
    simp [registerAll, constructorCallsAll, List.append_assoc]

theorem rangeAccounts_error_none {C V P N T : Type} (sdk : HandleConstructors C V P N T)
    (cred : Option C) (l : List Account) (m : GoMap (Option (ResourceClient V P N T)))
    (h : (rangeAccounts sdk cred l m).1 = none) : ∀ b ∈ l, ¬ bundleFails sdk b.ID cred := by
  induction l generalizing m with
  | nil => simp
  | cons a rest ih =>
    by_cases ha : bundleFails sdk a.ID cred
    · obtain ⟨e, -, hr⟩ := rangeAccounts_cons_fail sdk cred a rest m ha
      rw [hr] at h
      simp at h
    · rw [rangeAccounts_cons_ok sdk cred a rest m ha] at h
      intro b hb
      rcases List.mem_cons.mp hb with rfl | hb
      · exact ha
      · exact ih _ h b hb

theorem get_registerAll_of_not_mem {C V P N T : Type} (sdk : HandleConstructors C V P N T)
    (cred : Option C) (pre : List Account) (m : GoMap (Option (ResourceClient V P N T)))
    (id : String) (h : ∀ b ∈ pre, b.ID ≠ id) :
    GoMap.get (registerAll sdk cred pre m) id = GoMap.get m id := by
  induction pre generalizing m with
  | nil => rfl
  | cons b pre ih =>
    have hb : b.ID ≠ id := h b (List.mem_cons_self _ _)
    have hpre : ∀ x ∈ pre, x.ID ≠ id := fun x hx => h x (List.mem_cons_of_mem _ hx)
    show GoMap.get (registerAll sdk cred pre (GoMap.set m b.ID (bundleOf sdk b.ID cred))) id = _
    rw [ih _ hpre, GoMap.get_set_of_ne _ _ _ _ hb]

theorem get_registerAll_of_mem {C V P N T : Type} (sdk : HandleConstructors C V P N T)
    (cred : Option C) (pre : List Account) (m : GoMap (Option (ResourceClient V P N T)))
    (id : String) (h : ∃ b ∈ pre, b.ID = id) :
    GoMap.get (registerAll sdk cred pre m) id = some (bundleOf sdk id cred) := by
  induction pre generalizing m with
  | nil => simp at h
  | cons b pre ih =>
    show GoMap.get (registerAll sdk cred pre (GoMap.set m b.ID (bundleOf sdk b.ID cred))) id = _
    by_cases hpre : ∃ x ∈ pre, x.ID = id
    · exact ih _ hpre
    · have hb : b.ID = id := by
        obtain ⟨x, hx, hxid⟩ := h
        rcases List.mem_cons.mp hx with rfl | hx
        · exact hxid
        · exact absurd ⟨x, hx, hxid⟩ hpre
      have hne : ∀ x ∈ pre, x.ID ≠ id := fun x hx hxid => hpre ⟨x, hx, hxid⟩
      rw [get_registerAll_of_not_mem sdk cred pre _ id hne, ← hb, GoMap.get_set_self]

theorem bundleOf_handles {C V P N T : Type} (sdk : HandleConstructors C V P N T)
    (accountID : String) (cred : Option C) (h : ¬ bundleFails sdk accountID cred) :
    ∃ v p n t, sdk.NewVirtualNetworksClient accountID cred = (some v, none) ∧
      sdk.NewVirtualNetworkPeeringsClient accountID cred = (some p, none) ∧
      sdk.NewSecurityGroupsClient accountID cred = (some n, none) ∧
      sdk.NewTagsClient accountID cred = (some t, none) ∧
      bundleOf sdk accountID cred = some ⟨v, p, n, t⟩ := by
  obtain ⟨v, p, n, t, hv, hp, hn, ht, hr⟩ := NewResourceClient_of_not_fails sdk accountID cred h
  exact ⟨v, p, n, t, hv, hp, hn, ht, by simp [bundleOf, hr]⟩

end Azure

namespace Azure

/-! ## Claims about the account client registry -/

/-- C1: `NewResourceClient` is all-or-nothing. It returns a non-nil error with a
nil bundle exactly when one of the four constructors returns a non-nil error or
a nil handle with no error; otherwise it returns a nil error and the bundle made
of exactly the four handles the constructors returned. It never returns both a
bundle and an error, nor neither. -/
theorem NewResourceClient_all_or_nothing {C V P N T : Type}
    (sdk : HandleConstructors C V P N T) (accountID : String) (credentials : Option C) :
    (((NewResourceClient sdk accountID credentials).1.2.isSome = true ∧
        (NewResourceClient sdk accountID credentials).1.1 = none) ↔
      bundleFails sdk accountID credentials) ∧
    (bundleFails sdk accountID credentials ∨
      ∃ v p n t, sdk.NewVirtualNetworksClient accountID credentials = (some v, none) ∧
        sdk.NewVirtualNetworkPeeringsClient accountID credentials = (some p, none) ∧
        sdk.NewSecurityGroupsClient accountID credentials = (some n, none) ∧
        sdk.NewTagsClient accountID credentials = (some t, none) ∧
        (NewResourceClient sdk accountID credentials).1 =
          (some { VNET := v, VNETPeering := p, NSG := n, Tag := t }, none)) ∧
    (NewResourceClient sdk accountID credentials).1.1.isSome =
      !(NewResourceClient sdk accountID credentials).1.2.isSome := by
  by_cases h : bundleFails sdk accountID credentials
  · obtain ⟨e, k, he, -, -, -⟩ := NewResourceClient_of_fails sdk accountID credentials h
    simp [he, h]
  · obtain ⟨v, p, n, t, hv, hp, hn, ht, hr⟩ :=
      NewResourceClient_of_not_fails sdk accountID credentials h
    refine ⟨?_, Or.inr ⟨v, p, n, t, hv, hp, hn, ht, by rw [hr]⟩, ?_⟩
    · simp [hr, h]
    · simp [hr]

/-- C2: registry initialization is all-or-nothing. If bundle construction fails
for at least one account of the list the account source returns, `NewClient`
returns a nil client and a non-nil error, whatever was built before the failing
account. -/
theorem NewClient_all_or_nothing {C L V P N T : Type} (sdk : HandleConstructors C V P N T)
    (newDefaultAzureCredential : Option C × Option GoError)
    (listAccounts : Client C L V P N T → List Account) (logger : Option L)
    (h : ∃ a ∈ listAccounts
        { cred := newDefaultAzureCredential.1, logger := logger, accountClients := GoMap.empty },
      bundleFails sdk a.ID newDefaultAzureCredential.1) :
    (NewClient sdk newDefaultAzureCredential listAccounts logger).1.1 = none ∧
    (NewClient sdk newDefaultAzureCredential listAccounts logger).1.2.isSome = true := by
  obtain ⟨cred, _ | err⟩ := newDefaultAzureCredential
  · obtain ⟨a, ha, hfail⟩ := h
    rcases hr : rangeAccounts sdk cred
        (listAccounts { cred := cred, logger := logger, accountClients := GoMap.empty })
        GoMap.empty with ⟨_ | e, m, calls⟩
    · exact absurd hfail
        (rangeAccounts_error_none sdk cred _ GoMap.empty (by rw [hr]) a ha)
    · simp [NewClient, Client.initializeClientsPerAccount, hr]
  · simp [NewClient]

/-- Witness of C2: with accounts acc-1, acc-2, acc-3 and a tag constructor that
errors for acc-2, `NewClient` returns no client and an error. -/
theorem NewClient_all_or_nothing_witness :
    (∃ a ∈ threeAccounts { cred := some (), logger := none, accountClients := GoMap.empty },
        bundleFails faultySdk a.ID (some ())) ∧
    (NewClient faultySdk (some (), none) threeAccounts (none : Option Unit)).1.1 = none ∧
    (NewClient faultySdk (some (), none) threeAccounts (none : Option Unit)).1.2.isSome = true :=
  ⟨⟨⟨"acc-2"⟩, by decide, by decide⟩,
    NewClient_all_or_nothing faultySdk (some (), none) threeAccounts none
      ⟨⟨"acc-2"⟩, by decide, by decide⟩⟩

end Azure

namespace Azure

/-- C3: when `initializeClientsPerAccount` returns nil on a client whose map
started empty, the map has an entry for an id exactly when the id is the ID of
an account of the list, and every entry is a non-nil bundle holding the four
handles the constructors returned for that ID and the client's credential. -/
theorem initializeClientsPerAccount_success {C L V P N T : Type}
    (sdk : HandleConstructors C V P N T) (listAccounts : Client C L V P N T → List Account)
    (c : Client C L V P N T) (hempty : c.accountClients = GoMap.empty)
    (hok : (c.initializeClientsPerAccount sdk listAccounts).1 = none) (id : String) :
    ((GoMap.get (c.initializeClientsPerAccount sdk listAccounts).2.1.accountClients id).isSome
        = true ↔ ∃ a ∈ listAccounts c, a.ID = id) ∧
    (∀ entry, GoMap.get (c.initializeClientsPerAccount sdk listAccounts).2.1.accountClients id
        = some entry →
      ∃ v p n t, sdk.NewVirtualNetworksClient id c.cred = (some v, none) ∧
        sdk.NewVirtualNetworkPeeringsClient id c.cred = (some p, none) ∧
        sdk.NewSecurityGroupsClient id c.cred = (some n, none) ∧
        sdk.NewTagsClient id c.cred = (some t, none) ∧
        entry = some { VNET := v, VNETPeering := p, NSG := n, Tag := t }) := by
  have hall : ∀ b ∈ listAccounts c, ¬ bundleFails sdk b.ID c.cred := by
    apply rangeAccounts_error_none sdk c.cred (listAccounts c) c.accountClients
    simpa [Client.initializeClientsPerAccount] using hok
  have hrun := rangeAccounts_append_ok sdk c.cred (listAccounts c) [] c.accountClients hall
  have hmap : (c.initializeClientsPerAccount sdk listAccounts).2.1.accountClients =
      registerAll sdk c.cred (listAccounts c) GoMap.empty := by
    rw [List.append_nil] at hrun
    simp only [Client.initializeClientsPerAccount]
    rw [hrun, hempty]
    simp [rangeAccounts]
  rw [hmap]
  by_cases hid : ∃ a ∈ listAccounts c, a.ID = id
  · rw [get_registerAll_of_mem sdk c.cred _ _ id hid]
    obtain ⟨a, ha, rfl⟩ := hid
    obtain ⟨v, p, n, t, hv, hp, hn, ht, hb⟩ := bundleOf_handles sdk a.ID c.cred (hall a ha)
    refine ⟨by simpa using ⟨a, ha, rfl⟩, ?_⟩
    intro entry hentry
    exact ⟨v, p, n, t, hv, hp, hn, ht, by rw [← hb]; exact (Option.some.inj hentry).symm⟩
  · have hne : ∀ b ∈ listAccounts c, b.ID ≠ id := fun b hb hbid => hid ⟨b, hb, hbid⟩
    rw [get_registerAll_of_not_mem sdk c.cred _ _ id hne]
    simp [GoMap.empty, GoMap.get, hid]

/-- Witness of C3: with accounts acc-1 and acc-2 and constructors that succeed,
initialization succeeds, the lookups of acc-1 and acc-2 yield full bundles and
the lookup of acc-3 yields nothing. -/
theorem initializeClientsPerAccount_success_witness :
    (freshClient.initializeClientsPerAccount sampleSdk twoAccounts).1 = none ∧
    GoMap.get (freshClient.initializeClientsPerAccount sampleSdk twoAccounts).2.1.accountClients
      "acc-1" = some (some ⟨"vnet/acc-1", "peering/acc-1", "nsg/acc-1", "tag/acc-1"⟩) ∧
    GoMap.get (freshClient.initializeClientsPerAccount sampleSdk twoAccounts).2.1.accountClients
      "acc-2" = some (some ⟨"vnet/acc-2", "peering/acc-2", "nsg/acc-2", "tag/acc-2"⟩) ∧
    ((GoMap.get (freshClient.initializeClientsPerAccount sampleSdk twoAccounts).2.1.accountClients
      "acc-3").isSome = true ↔ ∃ a ∈ twoAccounts freshClient, a.ID = "acc-3") ∧
    GoMap.get (freshClient.initializeClientsPerAccount sampleSdk twoAccounts).2.1.accountClients
      "acc-3" = none :=
  ⟨by decide, by decide, by decide,
    (initializeClientsPerAccount_success sampleSdk twoAccounts freshClient rfl (by decide)
      "acc-3").1,
    by decide⟩

/-- C4: a bundle-construction failure is diagnosable. When the first failing
account of the list is `a` and its first failing handle is `k`, the message of
the error `initializeClientsPerAccount` returns contains the ID of `a` and the
name of `k`, and so does the message of the error `NewClient` returns; this
covers a constructor error and a nil handle with no error alike. -/
theorem construction_failure_diagnosable {C L V P N T : Type}
    (sdk : HandleConstructors C V P N T) (listAccounts : Client C L V P N T → List Account)
    (c : Client C L V P N T) (pre post : List Account) (a : Account) (k : HandleKind)
    (hlist : listAccounts c = pre ++ a :: post)
    (hpre : ∀ b ∈ pre, ¬ bundleFails sdk b.ID c.cred)
    (hk : firstFailingHandle sdk a.ID c.cred = some k) :
    (∃ e, (c.initializeClientsPerAccount sdk listAccounts).1 = some e ∧
      occursIn a.ID e.Error ∧ occursIn k.name e.Error) ∧
    (c.accountClients = GoMap.empty →
      ∃ e, (NewClient sdk (c.cred, none) listAccounts c.logger).1 = (none, some e) ∧
        occursIn a.ID e.Error ∧ occursIn k.name e.Error) := by
  have hfail := firstFailingHandle_some sdk a.ID c.cred k hk
  obtain ⟨inner, k', hinner, hk', hocc, -⟩ := NewResourceClient_of_fails sdk a.ID c.cred hfail
  have hkk : k' = k := Option.some.inj (hk'.symm.trans hk)
  subst hkk
  obtain ⟨inner', hinner', hrun⟩ := rangeAccounts_cons_fail sdk c.cred a post
    (registerAll sdk c.cred pre c.accountClients) hfail
  have hii : inner' = inner := by
    rw [hinner] at hinner'
    simpa using hinner'.symm
  subst hii
  have herr : (c.initializeClientsPerAccount sdk listAccounts).1 =
      some (errorfW ("failed to initialize Client for account ID \x27" ++ a.ID ++ "\x27: ")
        inner') := by
    simp [Client.initializeClientsPerAccount, hlist,
      rangeAccounts_append_ok sdk c.cred pre (a :: post) c.accountClients hpre, hrun]
  have hid : occursIn a.ID (errorfW
      ("failed to initialize Client for account ID \x27" ++ a.ID ++ "\x27: ") inner').Error := by
    apply occursIn_append_left
    apply occursIn_append_left
    apply occursIn_append_right
    exact occursIn_self _
  have hname : occursIn k'.name (errorfW
      ("failed to initialize Client for account ID \x27" ++ a.ID ++ "\x27: ") inner').Error :=
    occursIn_append_right _ _ _ hocc
  refine ⟨⟨_, herr, hid, hname⟩, ?_⟩
  intro hempty
  have hc : ({ cred := c.cred, logger := c.logger, accountClients := GoMap.empty } :
      Client C L V P N T) = c := by
    cases c; simp_all
  rcases hr : c.initializeClientsPerAccount sdk listAccounts with ⟨e, c', calls⟩
  rw [hr] at herr
  simp only at herr
  subst herr
  refine ⟨errorfW "failed to initialize resource clients: " _, ?_,
    occursIn_append_right _ _ _ hid, occursIn_append_right _ _ _ hname⟩
  simp [NewClient, hc, hr]

/-- Witness of C4: with accounts acc-1, acc-2, acc-3 and a tag constructor that
errors for acc-2, both messages contain acc-2 and Tag. -/
theorem construction_failure_diagnosable_witness :
    (∃ e, (freshClient.initializeClientsPerAccount faultySdk threeAccounts).1 = some e ∧
      occursIn "acc-2" e.Error ∧ occursIn "Tag" e.Error) ∧
    (freshClient.accountClients = GoMap.empty →
      ∃ e, (NewClient faultySdk (freshClient.cred, none) threeAccounts freshClient.logger).1
          = (none, some e) ∧
        occursIn "acc-2" e.Error ∧ occursIn "Tag" e.Error) :=
  construction_failure_diagnosable faultySdk threeAccounts freshClient [⟨"acc-1"⟩]
    [⟨"acc-3"⟩] ⟨"acc-2"⟩ .Tag rfl (by decide) (by decide)

/-- C7: a credential-provider failure is propagated. When obtaining the
credential returns an error, `NewClient` returns a nil client and a non-nil
error that wraps that error, and calls no handle constructor (its only call is
the credential provider). -/
theorem NewClient_credential_failure {C L V P N T : Type}
    (sdk : HandleConstructors C V P N T) (cred : Option C) (err : GoError)
    (listAccounts : Client C L V P N T → List Account) (logger : Option L) :
    (NewClient sdk (cred, some err) listAccounts logger).1.1 = none ∧
    (∃ e, (NewClient sdk (cred, some err) listAccounts logger).1.2 = some e ∧
      e.Unwrap = some err ∧ e.Error = "failed to obtain a credential: " ++ err.Error) ∧
    (NewClient sdk (cred, some err) listAccounts logger).2 = [Call.NewDefaultAzureCredential] ∧
    (∀ call ∈ (NewClient sdk (cred, some err) listAccounts logger).2,
      call.isHandleConstructor = false) := by
  refine ⟨rfl, ⟨_, rfl, rfl, rfl⟩, rfl, ?_⟩
  intro call hcall
  have : call = Call.NewDefaultAzureCredential := by simpa [NewClient] using hcall
  subst this
  rfl

/-- C8: the provider identity is constant. `GetName` returns "Azure" for every
client, and returns the same text on the client `initializeClientsPerAccount`
leaves behind as on the client it started from. -/
theorem GetName_constant {C L V P N T : Type} (c : Client C L V P N T)
    (sdk : HandleConstructors C V P N T) (listAccounts : Client C L V P N T → List Account) :
    c.GetName = "Azure" ∧
    (c.initializeClientsPerAccount sdk listAccounts).2.1.GetName = c.GetName ∧
    (c.initializeClientsPerAccount sdk listAccounts).2.1.GetName = "Azure" :=
  ⟨rfl, rfl, rfl⟩

end Azure

namespace Azure

/-- C10: state left by a failed `initializeClientsPerAccount`. Starting from an
empty map, when the list is `pre ++ a :: post`, no account of `pre` fails and
`a` fails, the call returns an error; the keys of the map are exactly the IDs of
the accounts of `pre`, each mapped to the bundle of the handles its constructors
returned; `a` has no entry; the calls made are the account source, the complete
constructions of `pre` and the constructor calls of `a`, and the whole outcome
is the one of the list cut after `a`, so no account of `post` is processed or
registered. -/
theorem initializeClientsPerAccount_failure_state {C L V P N T : Type}
    (sdk : HandleConstructors C V P N T) (listAccounts : Client C L V P N T → List Account)
    (c : Client C L V P N T) (pre post : List Account) (a : Account)
    (hempty : c.accountClients = GoMap.empty)
    (hlist : listAccounts c = pre ++ a :: post)
    (hpre : ∀ b ∈ pre, ¬ bundleFails sdk b.ID c.cred)
    (hfail : bundleFails sdk a.ID c.cred) :
    (c.initializeClientsPerAccount sdk listAccounts).1.isSome = true ∧
    (∀ id, (GoMap.get (c.initializeClientsPerAccount sdk listAccounts).2.1.accountClients
        id).isSome = true ↔ ∃ b ∈ pre, b.ID = id) ∧
    (∀ b ∈ pre, ∃ v p n t, sdk.NewVirtualNetworksClient b.ID c.cred = (some v, none) ∧
        sdk.NewVirtualNetworkPeeringsClient b.ID c.cred = (some p, none) ∧
        sdk.NewSecurityGroupsClient b.ID c.cred = (some n, none) ∧
        sdk.NewTagsClient b.ID c.cred = (some t, none) ∧
        GoMap.get (c.initializeClientsPerAccount sdk listAccounts).2.1.accountClients b.ID =
          some (some { VNET := v, VNETPeering := p, NSG := n, Tag := t })) ∧
    GoMap.get (c.initializeClientsPerAccount sdk listAccounts).2.1.accountClients a.ID = none ∧
    (c.initializeClientsPerAccount sdk listAccounts).2.2 =
      Call.ListAccounts ::
        (constructorCallsAll pre ++ (NewResourceClient sdk a.ID c.cred).2) ∧
    c.initializeClientsPerAccount sdk listAccounts =
      c.initializeClientsPerAccount sdk (fun _ => pre ++ [a]) := by
  obtain ⟨inner, hinner, hrun⟩ := rangeAccounts_cons_fail sdk c.cred a post
    (registerAll sdk c.cred pre c.accountClients) hfail
  obtain ⟨inner', hinner', hrun'⟩ := rangeAccounts_cons_fail sdk c.cred a []
    (registerAll sdk c.cred pre c.accountClients) hfail
  have hinit : c.initializeClientsPerAccount sdk listAccounts =
      (some (errorfW ("failed to initialize Client for account ID \x27" ++ a.ID ++ "\x27: ")
          inner),
        { c with accountClients := registerAll sdk c.cred pre c.accountClients },
        Call.ListAccounts ::
          (constructorCallsAll pre ++ (NewResourceClient sdk a.ID c.cred).2)) := by
    simp only [Client.initializeClientsPerAccount, hlist]
    rw [rangeAccounts_append_ok sdk c.cred pre (a :: post) c.accountClients hpre, hrun]
  have hcut : c.initializeClientsPerAccount sdk (fun _ => pre ++ [a]) =
      (some (errorfW ("failed to initialize Client for account ID \x27" ++ a.ID ++ "\x27: ")
          inner'),
        { c with accountClients := registerAll sdk c.cred pre c.accountClients },
        Call.ListAccounts ::
          (constructorCallsAll pre ++ (NewResourceClient sdk a.ID c.cred).2)) := by
    simp only [Client.initializeClientsPerAccount]
    rw [rangeAccounts_append_ok sdk c.cred pre [a] c.accountClients hpre, hrun']
  have hsame : inner' = inner := by
    rw [hinner] at hinner'
    simpa using hinner'.symm
  have hnot : ∀ b ∈ pre, b.ID ≠ a.ID := by
    intro b hb hba
    exact hpre b hb (hba ▸ hfail)
  rw [hinit]
  refine ⟨rfl, ?_, ?_, ?_, rfl, ?_⟩
  · intro id
    show (GoMap.get (registerAll sdk c.cred pre c.accountClients) id).isSome = true ↔ _
    by_cases hid : ∃ b ∈ pre, b.ID = id
    · rw [get_registerAll_of_mem sdk c.cred _ _ id hid]
      simpa using hid
    · have hne : ∀ b ∈ pre, b.ID ≠ id := fun b hb hbid => hid ⟨b, hb, hbid⟩
      rw [get_registerAll_of_not_mem sdk c.cred _ _ id hne, hempty]
      simp [GoMap.empty, GoMap.get, hid]
  · intro b hb
    obtain ⟨v, p, n, t, hv, hp, hn, ht, hbundle⟩ := bundleOf_handles sdk b.ID c.cred (hpre b hb)
    refine ⟨v, p, n, t, hv, hp, hn, ht, ?_⟩
    show GoMap.get (registerAll sdk c.cred pre c.accountClients) b.ID = _
    rw [get_registerAll_of_mem sdk c.cred _ _ b.ID ⟨b, hb, rfl⟩, hbundle]
  · show GoMap.get (registerAll sdk c.cred pre c.accountClients) a.ID = none
    rw [get_registerAll_of_not_mem sdk c.cred _ _ a.ID hnot, hempty]
    rfl
  · rw [hcut, hsame]

end Azure

namespace Azure

/-- Witness of C10: with accounts acc-1, acc-2, acc-3 and a tag constructor that
errors for acc-2, the call fails, acc-1 is registered, acc-2 and acc-3 are not,
and the constructors of acc-3 are never called. -/
theorem initializeClientsPerAccount_failure_state_witness :
    bundleFails faultySdk "acc-2" (some ()) ∧
    (freshClient.initializeClientsPerAccount faultySdk threeAccounts).1.isSome = true ∧
    GoMap.get (freshClient.initializeClientsPerAccount faultySdk threeAccounts).2.1.accountClients
      "acc-2" = none ∧
    ((GoMap.get (freshClient.initializeClientsPerAccount faultySdk
        threeAccounts).2.1.accountClients "acc-3").isSome = true ↔
      ∃ b ∈ [(⟨"acc-1"⟩ : Account)], b.ID = "acc-3") ∧
    (freshClient.initializeClientsPerAccount faultySdk threeAccounts).2.2 =
      Call.ListAccounts :: (constructorCallsAll [⟨"acc-1"⟩] ++
        (NewResourceClient faultySdk "acc-2" freshClient.cred).2) :=
  have h := initializeClientsPerAccount_failure_state faultySdk threeAccounts freshClient
    [⟨"acc-1"⟩] [⟨"acc-3"⟩] ⟨"acc-2"⟩ rfl rfl (by decide) (by decide)
  ⟨by decide, h.1, h.2.2.2.1, h.2.1 "acc-3", h.2.2.2.2.1⟩

end Azure

namespace Db

open Azure (GoMap)

/-! ## Claims about the storage contract -/

/-- Counterexample to C5: Account is a kind of the catalog and its collection is
named in `tableNames`, yet the interface declares none of Put, Get, List and
Delete for it; no method of the interface mentions Account at all. -/
theorem storage_contract_misses_Account :
    Kind.Account ∈ Kind.all ∧ Kind.Account.table ∈ tableNames ∧
    declares .Put .Account = false ∧ declares .Get .Account = false ∧
    declares .List .Account = false ∧ declares .Delete .Account = false ∧
    ∀ m ∈ clientMethods, m.mentions "Account" = false := by
  decide

/-- C5, amended: the interface declares Put, Get, List and Delete for a kind of
the catalog exactly when the kind is not Account; so it does for each of the
other twelve kinds, and for Account it declares none of the four. -/
theorem storage_contract_covers_all_but_Account (op : Operation) (k : Kind) :
    declares op k = true ↔ k ≠ Kind.Account := by
  cases k <;> cases op <;> decide

/-- C6: the collection catalog is closed and partitions the kinds. `tableNames`
has exactly thirteen entries, pairwise distinct and non-empty; they are the
thirteen table-name constants, one per kind in catalog order, and no two kinds
share a collection. -/
theorem tableNames_catalog :
    tableNames.length = 13 ∧ tableNames.Nodup ∧ (∀ n ∈ tableNames, n ≠ "") ∧
    tableNames = ["vpcs", "instances", "subnets", "clusters", "pods", "kubernetes_services",
      "kubernetes_nodes", "namespaces", "accounts", "route_tables", "acls", "security_groups",
      "sync_time"] ∧
    Kind.all.map Kind.table = tableNames ∧
    (∀ k : Kind, k ∈ Kind.all) ∧
    (∀ k₁ k₂ : Kind, k₁.table = k₂.table → k₁ = k₂) := by
  have hall : ∀ k : Kind, k ∈ Kind.all := by intro k; cases k <;> decide
  have hmap : Kind.all.map Kind.table = tableNames := rfl
  have hnodup : tableNames.Nodup := by decide
  refine ⟨rfl, hnodup, by decide, rfl, hmap, hall, ?_⟩
  intro k₁ k₂ h
  exact List.inj_on_of_nodup_map (hmap ▸ hnodup) (hall k₁) (hall k₂) h

/-- Counterexample to C9: a store is opened and then closed, and on it the Put
of the virtual network vnet-1 fails with the store-closed error; on the open
store the same Put fails when the backing engine fails and when it is
cancelled; and after a Put that succeeded, the Get of vnet-1 fails when the
backing engine fails. -/
theorem round_trip_counterexample :
    Store.Open .Completes "inventory" (Store.new (fun _ => StoredObject)) = .ok openStore ∧
    Store.Close .Completes openStore = .ok closedStore ∧
    Store.Put .Completes sampleDbId Kind.VirtualNetwork vnet1 closedStore
      = .error .StoreClosed ∧
    Store.Put .EngineFails sampleDbId Kind.VirtualNetwork vnet1 openStore
      = .error .BackingEngine ∧
    Store.Put .Cancelled sampleDbId Kind.VirtualNetwork vnet1 openStore
      = .error .Cancellation ∧
    ∃ s', Store.Put .Completes sampleDbId Kind.VirtualNetwork vnet1 openStore = .ok s' ∧
      Store.Get .EngineFails Kind.VirtualNetwork "vnet-1" s' = .error .BackingEngine :=
  ⟨rfl, rfl, rfl, rfl, rfl, _, rfl, rfl⟩

/-- C9, amended: for every kind of the catalog and every object of that kind, on
an open store, when the backing engine carries out both calls and neither is
cancelled, the Put of the object returns no error and leaves the store open,
and the Get of the object's identifier in the same kind on the resulting store
returns no error and the object itself. -/
theorem round_trip_open_store {α : Kind → Type} (dbId : (k : Kind) → α k → String)
    (k : Kind) (o : α k) (s : Store α) (hopen : s.lifecycle = Lifecycle.Open) :
    ∃ s', Store.Put .Completes dbId k o s = .ok s' ∧ s'.lifecycle = Lifecycle.Open ∧
      Store.Get .Completes k (dbId k o) s' = .ok o := by
  refine ⟨{ s with collections :=
      Function.update s.collections k (GoMap.set (s.collections k) (dbId k o) o) },
    by simp [Store.Put, Store.refusal, hopen], hopen, ?_⟩
  simp [Store.Get, Store.refusal, hopen, Azure.GoMap.get_set_self]

/-- Witness of C9: on the store a successful `Open` leaves, `PutVPC` of the
virtual network with id vnet-1 and provider Azure followed by `GetVPC` of vnet-1
returns that virtual network. -/
theorem round_trip_open_store_witness :
    openStore.lifecycle = Lifecycle.Open ∧
    ∃ s', Store.Put .Completes sampleDbId Kind.VirtualNetwork vnet1 openStore = .ok s' ∧
      s'.lifecycle = Lifecycle.Open ∧
      Store.Get .Completes Kind.VirtualNetwork "vnet-1" s' = .ok vnet1 :=
  ⟨rfl, round_trip_open_store sampleDbId Kind.VirtualNetwork vnet1 openStore rfl⟩

end Db
